import Mathlib

/-
Shallow embedding of common/clients/multi-tcp-client/src/lib.rs.

Modelling conventions:
- Durations are modelled as unbounded natural numbers of time units
  (the Rust code stores std::time::Duration values; their scalar
  multiplication by a u32 is the only arithmetic performed on them).
- u32 arithmetic is modelled as Nat with explicit reduction mod 2 ^ 32
  where wrap-around matters (release-mode Rust semantics): the retry
  counter increment and the 2_u32.pow(attempt) exponentiation.
- A tokio TcpStream is modelled by its observable behaviour at the
  points this code touches it: a queue of inbound bytes available to
  read, whether the peer has closed its read side, whether the next
  read or write fails with an I/O error, and the list of bytes written
  so far.
- Future polling is modelled by explicit step functions: each poll of
  ConnectionReconnector takes the time elapsed since its backoff timer
  was armed and the current status of the pending connect future.
- println!/eprintln!/warn! logging has no observable effect and is
  omitted.
-/

namespace MultiTcpClient

/-- Result of one poll of the hand-rolled ConnectionReconnector future:
pending, terminally failed (the MaxRetriesExceeded io::Error), or
terminally succeeded (a fresh TcpStream). -/
inductive ReconnectorOutput where
  | pending
  | failed
  | succeeded
  deriving DecidableEq

/-- Status of the pending low-level connect future at the moment the
reconnector polls it. -/
inductive ConnectOutcome where
  | pending
  | failure
  | success
  deriving DecidableEq

/-- State of ConnectionReconnector (lib.rs lines 29-40).  The pinned
connect future itself is not part of the state; its status is an input
to each poll.  All durations are in abstract time units. -/
structure ConnectionReconnector where
  address : Nat
  current_retry_attempt : Nat
  maximum_retry_attempts : Nat
  current_backoff_delay : Nat
  reconnection_backoff : Nat
  maximum_reconnection_backoff : Nat
  deriving DecidableEq

/-- ConnectionReconnector::new (lib.rs lines 43-58): the backoff timer
is armed with a zero delay and the retry counter starts at 0. -/
def ConnectionReconnector.new (address maximum_retry_attempts reconnection_backoff
    maximum_reconnection_backoff : Nat) : ConnectionReconnector :=
  { address := address
    current_retry_attempt := 0
    maximum_retry_attempts := maximum_retry_attempts
    current_backoff_delay := 0
    reconnection_backoff := reconnection_backoff
    maximum_reconnection_backoff := maximum_reconnection_backoff }

/-- The next-delay computation of ConnectionReconnector::poll (lib.rs
lines 97-100): std::cmp::min(maximum_backoff, 2_u32.pow(attempt) * backoff).
The exponentiation is u32 arithmetic, so the scalar is reduced mod 2 ^ 32
(release-mode wrap-around); the Duration scalar multiplication itself is
modelled exactly on unbounded naturals. -/
def next_delay (attempt base cap : Nat) : Nat :=
  min cap ((2 ^ attempt % 2 ^ 32) * base)

/-- Modelled from the spec: the Backoff Policy contract of section 4.1,
next_delay(attempt, base, cap) = min(cap, base * 2 ^ attempt), with
unbounded integers (no overflow).  Kept separate from next_delay, which
is translated from the source, so the two can be compared. -/
def next_delay_spec (attempt base cap : Nat) : Nat :=
  min cap (base * 2 ^ attempt)

/-- ConnectionReconnector::poll (lib.rs lines 69-109).  elapsed is the
time since the backoff timer was armed; conn is the status of the
pending connect future.  On a connect failure the counter is
incremented (u32, mod 2 ^ 32), compared by equality against the
configured maximum, and otherwise the timer is re-armed with the next
backoff delay computed from the post-increment attempt count. -/
def ConnectionReconnector.poll (r : ConnectionReconnector) (elapsed : Nat)
    (conn : ConnectOutcome) : ReconnectorOutput × ConnectionReconnector :=
  if elapsed < r.current_backoff_delay then
    (ReconnectorOutput.pending, r)
  else
    match conn with
    | ConnectOutcome.pending => (ReconnectorOutput.pending, r)
    | ConnectOutcome.success => (ReconnectorOutput.succeeded, r)
    | ConnectOutcome.failure =>
        let attempt := (r.current_retry_attempt + 1) % 2 ^ 32
        if attempt = r.maximum_retry_attempts then
          (ReconnectorOutput.failed, { r with current_retry_attempt := attempt })
        else
          (ReconnectorOutput.pending,
            { r with
                current_retry_attempt := attempt
                current_backoff_delay :=
                  next_delay attempt r.reconnection_backoff r.maximum_reconnection_backoff })

/-- A run of the reconnector in which every connect attempt fails and
every backoff timer is allowed to elapse: j polls, each delivering a
connect failure, stopping at the first terminal output. -/
def iterFail (r : ConnectionReconnector) : Nat → ReconnectorOutput × ConnectionReconnector
  | 0 => (ReconnectorOutput.pending, r)
  | j + 1 =>
      match iterFail r j with
      | (ReconnectorOutput.pending, r1) =>
          r1.poll r1.current_backoff_delay ConnectOutcome.failure
      | other => other

/-- Result of the probe read performed with a one-byte buffer at the top
of ConnectionWriter::poll_write. -/
inductive ProbeResult where
  | readyData
  | readyEof
  | readyErr
  | pending
  deriving DecidableEq

/-- Outcome of a poll_write call: bytes written, the UnexpectedEof
error raised when the probe sees end-of-stream, or an underlying write
I/O error. -/
inductive WriteOutcome where
  | ok : Nat → WriteOutcome
  | eofError
  | ioError
  deriving DecidableEq

/-- Observable state of a tokio TcpStream at the operations this code
performs on it. -/
structure TcpStream where
  inbound : List Nat
  readClosed : Bool
  readErr : Bool
  writeError : Bool
  written : List Nat
  deriving DecidableEq

/-- poll_read with a one-byte destination buffer (lib.rs lines 120-121):
if inbound data is available, one byte is moved out of the stream into
the buffer and Ready(Ok(1)) is returned; with no data and a peer
half-close, Ready(Ok(0)); a read error yields Ready(Err); otherwise
Pending. -/
def TcpStream.poll_read1 (s : TcpStream) : ProbeResult × TcpStream :=
  match s.inbound with
  | _ :: rest => (ProbeResult.readyData, { s with inbound := rest })
  | [] =>
      if s.readClosed then (ProbeResult.readyEof, s)
      else if s.readErr then (ProbeResult.readyErr, s)
      else (ProbeResult.pending, s)

/-- The raw socket write (the poll_write call on the inner TcpStream at
lib.rs line 128): either the configured I/O failure, or all bytes are
accepted and appended to the written transcript. -/
def TcpStream.poll_write_raw (s : TcpStream) (buf : List Nat) : WriteOutcome × TcpStream :=
  if s.writeError then (WriteOutcome.ioError, s)
  else (WriteOutcome.ok buf.length, { s with written := s.written ++ buf })

/-- ConnectionWriter (lib.rs lines 11-17): one socket plus the three
backoff fields that are carried but never consulted by the write path. -/
structure ConnectionWriter where
  connection : TcpStream
  reconnection_backoff : Nat
  maximum_reconnection_backoff : Nat
  current_reconnection_backoff : Nat
  deriving DecidableEq

/-- ConnectionWriter::poll_write (lib.rs lines 113-130): probe-read into
a one-byte buffer; on Ready(Ok(0)) fail with the UnexpectedEof error
without writing; on every other probe result (data read, read error, or
pending) fall through to the underlying write. -/
def ConnectionWriter.poll_write (w : ConnectionWriter) (buf : List Nat) :
    WriteOutcome × ConnectionWriter :=
  match TcpStream.poll_read1 w.connection with
  | (ProbeResult.readyEof, s1) => (WriteOutcome.eofError, { w with connection := s1 })
  | (_, s1) =>
      let res := TcpStream.poll_write_raw s1 buf
      (res.1, { w with connection := res.2 })

/-- Result of Client::send: Ok(()), or the AddrNotAvailable error for an
address missing from the map. -/
inductive SendResult where
  | ok
  | addrNotAvailable
  deriving DecidableEq

/-- The HashMap of Client, modelled as an association list with
first-match lookup. -/
def lookupW : List (Nat × ConnectionWriter) → Nat → Option ConnectionWriter
  | [], _ => none
  | (k, v) :: rest, a => if k = a then some v else lookupW rest a

/-- In-place mutation of a map entry (what get_mut followed by a write
on the borrowed writer amounts to). -/
def updateW : List (Nat × ConnectionWriter) → Nat → ConnectionWriter →
    List (Nat × ConnectionWriter)
  | [], _, _ => []
  | (k, v) :: rest, a, w => if k = a then (k, w) :: rest else (k, v) :: updateW rest a w

/-- Client (lib.rs lines 163-165): the endpoint-to-writer map. -/
structure Client where
  connections_writers : List (Nat × ConnectionWriter)
  deriving DecidableEq

/-- Client::send (lib.rs lines 186-213).  If the address is absent from
the map, return the AddrNotAvailable error at once.  Otherwise drive
write_all on the borrowed writer (in this model poll_write completes in
one step, so write_all is a single poll_write); a write failure is only
printed (TODO: reconnection at line 209) and Ok(()) is returned either
way, the writer staying in the map. -/
def Client.send (c : Client) (address : Nat) (message : List Nat) : SendResult × Client :=
  match lookupW c.connections_writers address with
  | none => (SendResult.addrNotAvailable, c)
  | some w =>
      (SendResult.ok,
        { connections_writers :=
            updateW c.connections_writers address (ConnectionWriter.poll_write w message).2 })

/-- A writer over a stream whose next write fails with an I/O error and
with nothing to read: the shape of a dead connection as seen by send. -/
def failingWriter : ConnectionWriter :=
  { connection :=
      { inbound := [], readClosed := false, readErr := false, writeError := true, written := [] }
    reconnection_backoff := 1
    maximum_reconnection_backoff := 5
    current_reconnection_backoff := 1 }

/-- A writer whose peer has half-closed: the probe read reports
end-of-stream. -/
def closedWriter : ConnectionWriter :=
  { connection :=
      { inbound := [], readClosed := true, readErr := false, writeError := false, written := [] }
    reconnection_backoff := 1
    maximum_reconnection_backoff := 5
    current_reconnection_backoff := 1 }

/-- A healthy writer with two unread inbound bytes queued on the
socket. -/
def chattyWriter : ConnectionWriter :=
  { connection :=
      { inbound := [42, 7], readClosed := false, readErr := false, writeError := false,
        written := [] }
    reconnection_backoff := 1
    maximum_reconnection_backoff := 5
    current_reconnection_backoff := 1 }

/-- Updating the entry an earlier lookup found leaves the new value at
that key. -/
lemma lookupW_updateW (l : List (Nat × ConnectionWriter)) (a : Nat) (w : ConnectionWriter)
    (h : (lookupW l a).isSome) : lookupW (updateW l a w) a = some w := by
  induction l with
  | nil => simp [lookupW] at h
  | cons p rest ih =>
      obtain ⟨k, v⟩ := p
      by_cases hk : k = a
      · simp [lookupW, updateW, hk]
      · simp only [lookupW, updateW, hk, if_false] at h ⊢
        exact ih h

/-- Closed form for a run of all-failing connect attempts below the
retry limit: after j failed attempts (0 ≤ j < k < 2 ^ 32) the
reconnector is still pending, its counter reads j, and its timer is
armed with the j-th backoff delay. -/
lemma iterFail_new_closed_form (addr k b c : Nat) (hk : k < 2 ^ 32) :
    ∀ j, j < k →
      iterFail (ConnectionReconnector.new addr k b c) j =
        (ReconnectorOutput.pending,
          { address := addr
            current_retry_attempt := j
            maximum_retry_attempts := k
            current_backoff_delay := if j = 0 then 0 else next_delay j b c
            reconnection_backoff := b
            maximum_reconnection_backoff := c }) := by
  intro j
  induction j with
  | zero => intro _; simp [iterFail, ConnectionReconnector.new]
  | succ j ih =>
      intro hj
      have hj1 : j < k := Nat.lt_of_succ_lt hj
      have hmod : (j + 1) % 2 ^ 32 = j + 1 := Nat.mod_eq_of_lt (lt_trans hj hk)
      have hmodLit : (j + 1) % 4294967296 = j + 1 := hmod
      have hne : j + 1 ≠ k := Nat.ne_of_lt hj
      rw [iterFail, ih hj1]
      simp [ConnectionReconnector.poll, hmod, hmodLit, hne]

/-- Claim C3 (counterexample): with maximum_retry_attempts = 0 the claim
says the reconnector resolves to Failed after exactly one connect
attempt, but after one failed attempt the code's post-increment equality
check compares 1 with 0 and the reconnector is still pending. -/
theorem reconnector_zero_limit_not_failed_after_one :
    (iterFail (ConnectionReconnector.new 0 0 1 5) 1).1 ≠ ReconnectorOutput.failed := by
  decide

/-- Claim C3 (amended): for every maximum_retry_attempts k with
1 ≤ k < 2 ^ 32, a run in which every connect attempt fails is still
pending after any j < k attempts and resolves to Failed(MaxRetriesExceeded)
at exactly the k-th attempt; the limit check happens strictly after an
attempt fails, never before the first try (a first poll whose connect
succeeds yields Succeeded even though the budget is minimal).  With
k = 0 the equality check cannot fire on the first failure, so one
attempt does not produce Failed (the u32 counter would have to wrap
through 2 ^ 32 attempts first). -/
theorem reconnector_retry_budget (addr k b c : Nat) (hk1 : 1 ≤ k) (hk : k < 2 ^ 32) :
    (∀ j, j < k →
      (iterFail (ConnectionReconnector.new addr k b c) j).1 = ReconnectorOutput.pending) ∧
    (iterFail (ConnectionReconnector.new addr k b c) k).1 = ReconnectorOutput.failed ∧
    ((ConnectionReconnector.new addr k b c).poll 0 ConnectOutcome.success).1 =
      ReconnectorOutput.succeeded := by
  refine ⟨fun j hj => by rw [iterFail_new_closed_form addr k b c hk j hj], ?_, ?_⟩
  · obtain ⟨k0, rfl⟩ : ∃ k0, k = k0 + 1 := ⟨k - 1, by omega⟩
    rw [iterFail, iterFail_new_closed_form addr (k0 + 1) b c hk k0 (Nat.lt_succ_self k0)]
    have hmod : (k0 + 1) % 2 ^ 32 = k0 + 1 := Nat.mod_eq_of_lt hk
    have hmodLit : (k0 + 1) % 4294967296 = k0 + 1 := hmod
    simp [ConnectionReconnector.poll, hmod, hmodLit]
  · simp [ConnectionReconnector.poll, ConnectionReconnector.new]

/-- Claim C3 witness: at k = 2 the budget theorem applies and the run
fails at exactly the second attempt. -/
theorem reconnector_retry_budget_witness :
    (iterFail (ConnectionReconnector.new 7 2 1 5) 2).1 = ReconnectorOutput.failed :=
  (reconnector_retry_budget 7 2 1 5 (by decide) (by decide)).2.1

/-- Claim C8: a freshly constructed reconnector has its attempt counter
at 0 and its backoff timer armed with zero delay, and its very first
poll is not blocked by the timer: at elapsed time 0 it already polls the
connect future, so a successful connect resolves immediately with no
backoff penalty. -/
theorem reconnector_initial_state (addr k b c : Nat) :
    (ConnectionReconnector.new addr k b c).current_retry_attempt = 0 ∧
    (ConnectionReconnector.new addr k b c).current_backoff_delay = 0 ∧
    ((ConnectionReconnector.new addr k b c).poll 0 ConnectOutcome.success).1 =
      ReconnectorOutput.succeeded := by
  refine ⟨rfl, rfl, ?_⟩
  simp [ConnectionReconnector.poll, ConnectionReconnector.new]

/-- Claim C4: the code does not clamp the exponent.  At attempt 32 the
u32 exponentiation 2_u32.pow(32) wraps to 0 (release semantics; a debug
build panics), so the computed delay is min(cap, 0) = 0 instead of the
saturated value cap that the unclamped mathematical formula (and the
spec) would give. -/
theorem backoff_overflow_at_attempt_32 :
    next_delay 32 1000 5000 = 0 ∧ next_delay_spec 32 1000 5000 = 5000 := by
  constructor
  · decide
  · norm_num [next_delay_spec]

/-- Claim C5 (counterexample): at attempt 32 the code's delay is
min(5, (2 ^ 32 mod 2 ^ 32) * 1) = 0, not min(5, 1 * 2 ^ 32) = 5, so the
claimed identity next_delay n b c = min(c, b * 2 ^ n) fails (and with it
monotonicity, since the delay at attempt 31 is 5). -/
theorem backoff_formula_fails_at_32 :
    ¬ (next_delay 32 1 5 = min 5 (1 * 2 ^ 32)) := by
  decide

/-- Claim C5 (amended): while the u32 exponent does not overflow
(attempt ≤ 31) the computed delay equals min(cap, base * 2 ^ attempt)
and is non-decreasing in the attempt count; for every attempt the delay
is at most the cap; at attempt 0 it equals min(base, cap). -/
theorem backoff_policy_properties (b c : Nat) :
    (∀ n, n ≤ 31 → next_delay n b c = min c (b * 2 ^ n)) ∧
    (∀ m n, m ≤ n → n ≤ 31 → next_delay m b c ≤ next_delay n b c) ∧
    (∀ n, next_delay n b c ≤ c) ∧
    next_delay 0 b c = min b c := by
  have hpow : ∀ n : Nat, n ≤ 31 → 2 ^ n % 2 ^ 32 = 2 ^ n := by
    intro n hn
    exact Nat.mod_eq_of_lt
      (lt_of_le_of_lt (Nat.pow_le_pow_right (by norm_num) hn) (by norm_num))
  have hform : ∀ n, n ≤ 31 → next_delay n b c = min c (b * 2 ^ n) := by
    intro n hn
    rw [next_delay, hpow n hn, Nat.mul_comm]
  refine ⟨hform, ?_, ?_, ?_⟩
  · intro m n hmn hn
    rw [hform m (le_trans hmn hn), hform n hn]
    exact min_le_min (le_refl c)
      (Nat.mul_le_mul (le_refl b) (Nat.pow_le_pow_right (by norm_num) hmn))
  · intro n
    exact min_le_left c _
  · rw [hform 0 (by norm_num)]
    simp [Nat.min_comm]

/-- Claim C5 witness: the amended properties evaluated at attempt 3,
base 7, cap 1000. -/
theorem backoff_policy_properties_witness :
    next_delay 3 7 1000 = min 1000 (7 * 2 ^ 3) :=
  (backoff_policy_properties 7 1000).1 3 (by decide)

/-- Claim C6: every poll_write first probes the socket with a
non-blocking read; when the probe reports end-of-stream (no byte
available and the peer has closed) the call fails with the UnexpectedEof
error and the write is never attempted (the writer is returned
unchanged); in every other case the write is issued, an underlying I/O
failure is propagated to the caller and a successful write accepts the
whole buffer. -/
theorem poll_write_probe_behavior (w : ConnectionWriter) (buf : List Nat) :
    (w.connection.inbound = [] ∧ w.connection.readClosed = true →
      ConnectionWriter.poll_write w buf = (WriteOutcome.eofError, w)) ∧
    (¬ (w.connection.inbound = [] ∧ w.connection.readClosed = true) →
      (ConnectionWriter.poll_write w buf).1 =
        (if w.connection.writeError then WriteOutcome.ioError
         else WriteOutcome.ok buf.length)) := by
  obtain ⟨⟨inb, rc, re, we, wr⟩, b1, b2, b3⟩ := w
  constructor
  · rintro ⟨h1, h2⟩
    simp only at h1 h2
    subst h1; subst h2
    simp [ConnectionWriter.poll_write, TcpStream.poll_read1]
  · intro h
    cases inb with
    | nil =>
        cases rc with
        | true => exact absurd ⟨rfl, rfl⟩ h
        | false =>
            cases re <;> cases we <;>
              simp [ConnectionWriter.poll_write, TcpStream.poll_read1,
                TcpStream.poll_write_raw]
    | cons x rest =>
        cases we <;>
          simp [ConnectionWriter.poll_write, TcpStream.poll_read1,
            TcpStream.poll_write_raw]

/-- Claim C6 witness: a writer whose peer has half-closed fails the
write with the UnexpectedEof error and stays unchanged. -/
theorem poll_write_probe_behavior_witness :
    ConnectionWriter.poll_write closedWriter [5] = (WriteOutcome.eofError, closedWriter) :=
  (poll_write_probe_behavior closedWriter [5]).1 ⟨rfl, rfl⟩

/-- Claim C10: the probe reads into a one-byte buffer, so whenever
inbound data is available at write time the probe consumes the first
inbound byte and discards it (the resulting stream keeps only the tail
of the inbound queue and the byte is stored nowhere), after which the
write proceeds as usual. -/
theorem poll_write_consumes_inbound_byte (w : ConnectionWriter) (buf : List Nat)
    (h : w.connection.inbound ≠ []) :
    (ConnectionWriter.poll_write w buf).2.connection.inbound = w.connection.inbound.tail ∧
    (ConnectionWriter.poll_write w buf).1 =
      (if w.connection.writeError then WriteOutcome.ioError
       else WriteOutcome.ok buf.length) ∧
    (ConnectionWriter.poll_write w buf).2.connection.written =
      (if w.connection.writeError then w.connection.written
       else w.connection.written ++ buf) := by
  obtain ⟨⟨inb, rc, re, we, wr⟩, b1, b2, b3⟩ := w
  cases inb with
  | nil => exact absurd rfl h
  | cons x rest =>
      cases we <;>
        simp [ConnectionWriter.poll_write, TcpStream.poll_read1, TcpStream.poll_write_raw]

/-- Claim C10 witness: a writer with inbound bytes 42, 7 queued loses
the byte 42 on a write of 1: afterwards only 7 remains readable. -/
theorem poll_write_consumes_inbound_byte_witness :
    (ConnectionWriter.poll_write chattyWriter [1]).2.connection.inbound = [7] :=
  (poll_write_consumes_inbound_byte chattyWriter [1] (by decide)).1

/-- Claim C7: a send to an address that is not a key of the map fails
immediately with the AddrNotAvailable error and the client state is
completely unchanged: no write is attempted, nothing is retried, no
reconnection is started. -/
theorem send_unknown_destination (c : Client) (a : Nat) (m : List Nat)
    (h : lookupW c.connections_writers a = none) :
    (c.send a m).1 = SendResult.addrNotAvailable ∧ (c.send a m).2 = c := by
  simp [Client.send, h]

/-- Claim C7 witness: sending through a client with an empty map returns
the AddrNotAvailable error. -/
theorem send_unknown_destination_witness :
    ((Client.mk []).send 0 [1]).1 = SendResult.addrNotAvailable :=
  (send_unknown_destination (Client.mk []) 0 [1] rfl).1

/-- Claim C9: for an address present in the map, send returns Ok
regardless of the outcome of the underlying write; the writer is never
replaced or removed — after the call the map still holds the same
writer, advanced only by its own poll_write (on a write error that
writer is unchanged apart from the probe read). -/
theorem send_swallows_write_failure (c : Client) (a : Nat) (m : List Nat)
    (w : ConnectionWriter) (h : lookupW c.connections_writers a = some w) :
    (c.send a m).1 = SendResult.ok ∧
    lookupW (c.send a m).2.connections_writers a =
      some (ConnectionWriter.poll_write w m).2 := by
  have hs : (lookupW c.connections_writers a).isSome := by rw [h]; rfl
  constructor
  · simp [Client.send, h]
  · simp only [Client.send, h]
    exact lookupW_updateW c.connections_writers a _ hs

/-- Claim C9 witness: a one-entry map whose writer fails every write
still yields Ok from send. -/
theorem send_swallows_write_failure_witness :
    ((Client.mk [(3, failingWriter)]).send 3 [9]).1 = SendResult.ok :=
  (send_swallows_write_failure (Client.mk [(3, failingWriter)]) 3 [9] failingWriter
    (by decide)).1

/-- Claim C1: the code evaluated at a failing write.  For a client whose
only writer fails its write with an I/O error, send returns Ok (not
DestinationUnreachable), and the failed writer is still in the map
afterwards, bit-for-bit identical: it was not discarded, no reconnector
ran, no fresh writer was installed, no retry happened, no eviction
happened.  The reconnection path the claim describes is absent from
Client::send (the TODO comment at lib.rs line 209). -/
theorem send_no_reconnection_on_write_failure :
    ((Client.mk [(0, failingWriter)]).send 0 [1]).1 = SendResult.ok ∧
    lookupW ((Client.mk [(0, failingWriter)]).send 0 [1]).2.connections_writers 0 =
      some failingWriter := by
  decide

end MultiTcpClient
